import Mathlib

/-!
Verification development for the sigepol-backend Policy Risk & Obligation
Engine.  The definitions below embed the repository's frontend rendering
logic (from `src/frontend` / the Cobranzas and Alertas pages) directly,
and model the backend engine operations (payment registration,
cancellation, alert lifecycle, alert rule engine, risk classifier) from
the specification, since the Django backend sources are not part of the
checked tree.
-/

namespace Sigepol

/-! ### Data model -/

/-- Collection (cobranza) status, as used across the frontend and spec:
PENDIENTE, EN_PROCESO, PAGADA, VENCIDA, CANCELADA. -/
inductive EstadoCobranza where
  | PENDIENTE
  | EN_PROCESO
  | PAGADA
  | VENCIDA
  | CANCELADA
deriving DecidableEq

/-- Payment record attached to a paid collection: payment date, method,
document number, observations (the fields of the Registrar Pago form). -/
structure Pago where
  fecha_pago : Int
  metodo_pago : String
  numero_documento : String
  observaciones : String
deriving DecidableEq

/-- A collection obligation.  Dates are modelled as integer day numbers. -/
structure Cobranza where
  id : Nat
  poliza : Nat
  monto_uf : Rat
  fecha_emision : Int
  fecha_vencimiento : Int
  estado : EstadoCobranza
  pago : Option Pago
  motivo_cancelacion : Option String
deriving DecidableEq

/-- Typed business failures of the engine (spec section 7). -/
inductive EngineError where
  | NotFoundError
  | InvalidStateError
  | ConcurrentModificationError
  | ValidationError
deriving DecidableEq

/-! ### Risk classifier -/

/-- The four risk levels of the classifier (the keys of RISK_COLORS in
Analytics.jsx, with CRÍTICO written CRITICO). -/
inductive NivelRiesgo where
  | BAJO
  | MEDIO
  | ALTO
  | CRITICO
deriving DecidableEq

/-- RISK_COLORS lookup from Analytics.jsx lines 6-11: the colour assigned
to each of the four risk-level strings. -/
def RISK_COLORS (nivel : String) : Option String :=
  if nivel = "BAJO" then some "#4caf50"
  else if nivel = "MEDI\x4f" then some "#ff9800"
  else if nivel = "ALTO" then some "#ff5722"
  else if nivel = "CRÍTICO" then some "#c62828"
  else none

/-- Modelled from the spec: the backend risk classifier is not under
`src/`; spec section 4.2 gives the ordered threshold rules.  First
matching rule wins: `mora_rate > 0.50 OR alert_count > 5` gives CRITICO,
then `mora_rate > 0.30 OR alert_count > 2` gives ALTO, then
`mora_rate > 0.10 OR alert_count > 0` gives MEDIO, otherwise BAJO.
`cluster_id` is accepted but does not participate in the decision. -/
def classifyPolicy (cluster_id : Int) (mora_rate : Rat) (alert_count : Nat) :
    NivelRiesgo :=
  if mora_rate > 1/2 ∨ alert_count > 5 then .CRITICO
  else if mora_rate > 3/10 ∨ alert_count > 2 then .ALTO
  else if mora_rate > 1/10 ∨ alert_count > 0 then NivelRiesgo.MEDIO
  else .BAJO

/-! ### Collection lifecycle operations -/

/-- Modelled from the spec: the backend `registrar_pago` action is not
under `src/` (the Cobranzas page only posts to
`/cobranzas/{id}/registrar_pago/`).  Spec section 4.1: precondition
status in {PENDIENTE, EN_PROCESO}; on success attaches the payment
record and sets status PAGADA; otherwise fails with InvalidStateError,
leaving the stored record untouched. -/
def registerPayment (c : Cobranza) (fecha : Int) (metodo documento obs : String) :
    Except EngineError Cobranza :=
  if c.estado = .PENDIENTE ∨ c.estado = .EN_PROCESO then
    .ok { c with estado := .PAGADA, pago := some ⟨fecha, metodo, documento, obs⟩ }
  else
    .error .InvalidStateError

/-- Modelled from the spec: the backend `cancelar` action is not under
`src/` (the Cobranzas page only posts to `/cobranzas/{id}/cancelar/`).
Spec section 4.1: a non-empty reason is required (else ValidationError,
rejected before any state mutation); the transition is allowed only from
PENDIENTE or EN_PROCESO, otherwise InvalidStateError. -/
def cancelCollection (c : Cobranza) (motivo : String) :
    Except EngineError Cobranza :=
  if motivo = "" then .error .ValidationError
  else if c.estado = .PENDIENTE ∨ c.estado = .EN_PROCESO then
    .ok { c with estado := .CANCELADA, motivo_cancelacion := some motivo }
  else .error .InvalidStateError

/-- Modelled from the spec: `IsOverdue(c, now)` is a pure predicate, true
when the status is still PENDIENTE or EN_PROCESO and `now` is past the
due date (spec section 4.1). -/
def isOverdue (c : Cobranza) (now : Int) : Bool :=
  (c.estado == .PENDIENTE || c.estado == .EN_PROCESO) &&
    (c.fecha_vencimiento < now)

/-- The overdue count exactly as the spec's words state it:
`days_overdue = now.Date - due_date`. -/
def days_overdue (c : Cobranza) (now : Int) : Int :=
  now - c.fecha_vencimiento

/-- Modelled from the spec and the rendering convention of the Cobranzas
page: the backend serializer that computes the `dias_vencimiento` field
is not under `src/`, but the cell at Cobranzas lines 230-234 renders a
negative value as overdue ("Nd vencido", red) and a positive value as
plain days remaining ("Nd"), so the serialized value counts days until
the due date. -/
def dias_vencimiento (c : Cobranza) (now : Int) : Int :=
  c.fecha_vencimiento - now

/-- The Días cell text of the Cobranzas table (part_000 lines 230-234):
positive d renders "{d}d", negative d renders "{abs d}d vencido",
zero renders "Hoy". -/
def diasCellText (d : Int) : String :=
  if d > 0 then toString d.natAbs ++ "d"
  else if d < 0 then toString d.natAbs ++ "d vencido"
  else "Hoy"

/-- The Días cell colour class (part_000 line 231): red when d < 0,
yellow when 0 ≤ d ≤ 7, green otherwise. -/
def diasCellColor (d : Int) : String :=
  if d < 0 then "text-red-600"
  else if d ≤ 7 then "text-yellow-600"
  else "text-green-600"

/-- An action rendered in the Acciones cell of the Cobranzas table. -/
inductive Accion where
  | Pagar
  | Cancelar
  | PagadoLabel (fecha : Int)
deriving DecidableEq

/-- The Acciones cell of the Cobranzas table (part_000 lines 240-264):
the Pagar and Cancelar buttons are emitted only when
`cob.estado === 'PENDIENTE'`; when the status is PAGADA and a payment
date is present a plain "Pagado" label is shown instead. -/
def accionesCell (c : Cobranza) : List Accion :=
  (if c.estado = .PENDIENTE then [.Pagar, .Cancelar] else []) ++
    (match c.estado, c.pago with
     | .PAGADA, some p => [.PagadoLabel p.fecha_pago]
     | _, _ => [])

/-! ### Alerts -/

/-- Alert status, as rendered by the Alertas page:
PENDIENTE, LEIDA, RESUELTA, DESCARTADA. -/
inductive EstadoAlerta where
  | PENDIENTE
  | LEIDA
  | RESUELTA
  | DESCARTADA
deriving DecidableEq

/-- Alert category (the filter options of the Alertas page). -/
inductive CategoriaAlerta where
  | VENCIMIENTOS
  | COBRANZAS
  | IMPORTACIONES
  | PRODUCCION
  | SISTEMA
deriving DecidableEq

/-- Alert priority (the filter options of the Alertas page). -/
inductive PrioridadAlerta where
  | BAJA
  | MEDIA
  | ALTA
  | CRITICA
deriving DecidableEq

/-- An alert record.  `regla` is the rule identifier that, together with
the category and the policy reference, forms the dedup key. -/
structure Alerta where
  id : Nat
  categoria : CategoriaAlerta
  prioridad : PrioridadAlerta
  estado : EstadoAlerta
  poliza : Option Nat
  regla : String
  fecha_creacion : Int
  fecha_lectura : Option Int
  fecha_resolucion : Option Int
deriving DecidableEq

/-- Modelled from the spec: the backend `marcar_leida` action is not
under `src/`.  Spec section 4.3: PENDIENTE goes to LEIDA stamping the
read timestamp; re-marking an already-LEIDA alert is a no-op; from the
terminal states RESUELTA and DESCARTADA it fails with
InvalidStateError. -/
def markRead (a : Alerta) (now : Int) : Except EngineError Alerta :=
  match a.estado with
  | .PENDIENTE => .ok { a with estado := .LEIDA, fecha_lectura := some now }
  | .LEIDA => .ok a
  | _ => .error .InvalidStateError

/-- Modelled from the spec: the backend `marcar_resuelta` action is not
under `src/`.  Spec section 4.3: allowed from PENDIENTE or LEIDA,
stamping the resolution timestamp; fails with InvalidStateError from the
terminal states. -/
def resolveAlert (a : Alerta) (now : Int) : Except EngineError Alerta :=
  if a.estado = .PENDIENTE ∨ a.estado = .LEIDA then
    .ok { a with estado := .RESUELTA, fecha_resolucion := some now }
  else .error .InvalidStateError

/-- Modelled from the spec: the backend `descartar` action is not under
`src/`.  Spec section 4.3: allowed from PENDIENTE or LEIDA (discard is
allowed directly from PENDIENTE); fails with InvalidStateError from the
terminal states. -/
def discardAlert (a : Alerta) : Except EngineError Alerta :=
  if a.estado = .PENDIENTE ∨ a.estado = .LEIDA then
    .ok { a with estado := .DESCARTADA }
  else .error .InvalidStateError

/-- The Alertas page (part_000 lines 676-691) renders the Resolver and
Descartar buttons exactly when the alert status is PENDIENTE or
LEIDA. -/
def alertaActionsShown (estado : EstadoAlerta) : Bool :=
  estado == .PENDIENTE || estado == .LEIDA

/-! ### Alert rule engine -/

/-- Policy status as stored by the import pipeline. -/
inductive EstadoPoliza where
  | VIGENTE
  | VENCIDA
  | CANCELADA
deriving DecidableEq

/-- A policy, as read by the engine. -/
structure Poliza where
  id : Nat
  prima_uf : Rat
  fecha_inicio : Int
  fecha_expiracion : Int
  estado : EstadoPoliza
deriving DecidableEq

/-- Modelled from the spec: `mora_rate` is the fraction of a policy's
collections currently overdue or unpaid past the due date, and 0 when
the policy has no collections (spec section 4.2). -/
def moraRate (cobs : List Cobranza) (now : Int) : Rat :=
  if cobs.length = 0 then 0
  else ((cobs.filter (fun c => isOverdue c now || c.estado == .VENCIDA)).length : Rat)
    / (cobs.length : Rat)

/-- Dedup key of an alert: (category, policy reference, rule id). -/
structure DedupKey where
  categoria : CategoriaAlerta
  poliza : Option Nat
  regla : String
deriving DecidableEq

/-- The dedup key of an existing alert. -/
def alertKey (a : Alerta) : DedupKey :=
  ⟨a.categoria, a.poliza, a.regla⟩

/-- A candidate alert produced by one rule for one policy. -/
structure Candidate where
  categoria : CategoriaAlerta
  prioridad : PrioridadAlerta
  poliza : Nat
  regla : String
deriving DecidableEq

/-- The dedup key of a candidate. -/
def candKey (cd : Candidate) : DedupKey :=
  ⟨cd.categoria, some cd.poliza, cd.regla⟩

/-- Modelled from the spec: the expiring-soon rule — policy VIGENTE and
0 < days until expiration ≤ 30 gives a VENCIMIENTOS candidate, priority
ALTA when ≤ 5 days remain, else MEDIA (spec section 4.3). -/
def expiringCandidate (p : Poliza) (now : Int) : Option Candidate :=
  let d := p.fecha_expiracion - now
  if p.estado = .VIGENTE ∧ 0 < d ∧ d ≤ 30 then
    some ⟨.VENCIMIENTOS, if d ≤ 5 then .ALTA else .MEDIA, p.id, "por_vencer"⟩
  else none

/-- Modelled from the spec: the overdue-collection rule — any collection
with IsOverdue true gives a COBRANZAS candidate, priority ALTA when more
than 30 days overdue, else MEDIA (spec section 4.3); zero or one
candidate per policy per pass. -/
def overdueCandidate (p : Poliza) (cobs : List Cobranza) (now : Int) :
    Option Candidate :=
  match cobs.find? (fun c => isOverdue c now) with
  | some c =>
      some ⟨.COBRANZAS,
            if now - c.fecha_vencimiento > 30 then .ALTA else .MEDIA,
            p.id, "cobranza_vencida"⟩
  | none => none

/-- Modelled from the spec: the high-mora rule — mora rate above 0.5
gives a COBRANZAS candidate of priority CRITICA (spec section 4.3). -/
def highMoraCandidate (p : Poliza) (cobs : List Cobranza) (now : Int) :
    Option Candidate :=
  if moraRate cobs now > 1/2 then
    some ⟨.COBRANZAS, .CRITICA, p.id, "mora_alta"⟩
  else none

/-- The candidates the fixed rule list produces for one policy. -/
def policyCandidates (p : Poliza) (cobs : List Cobranza) (now : Int) :
    List Candidate :=
  (expiringCandidate p now).toList ++ (overdueCandidate p cobs now).toList ++
    (highMoraCandidate p cobs now).toList

/-- A snapshot of the stored policies with their collections, plus the
evaluation date. -/
structure Snapshot where
  polizas : List (Poliza × List Cobranza)
  now : Int

/-- An existing alert with the given dedup key blocks a candidate when
its status is PENDIENTE or LEIDA (spec section 4.3 deduplication). -/
def openMatch (existing : List Alerta) (k : DedupKey) : Bool :=
  existing.any (fun a => alertKey a == k && alertaActionsShown a.estado)

/-- The alert record inserted for a candidate: fresh alerts start in
status PENDIENTE with the creation date stamped. -/
def mkAlerta (cd : Candidate) (now : Int) : Alerta :=
  ⟨0, cd.categoria, cd.prioridad, .PENDIENTE, some cd.poliza, cd.regla,
    now, none, none⟩

/-- All candidates of a snapshot, policy by policy. -/
def snapshotCandidates (s : Snapshot) : List Candidate :=
  (s.polizas.map (fun pc => policyCandidates pc.1 pc.2 s.now)).flatten

/-- Modelled from the spec: one evaluation pass of the Alert Rule Engine
— every candidate whose dedup key has an open (PENDIENTE or LEIDA) match
among the existing alerts is suppressed, the rest are inserted as fresh
PENDIENTE alerts (spec section 4.3). -/
def runEngine (s : Snapshot) (existing : List Alerta) : List Alerta :=
  ((snapshotCandidates s).filter
      (fun cd => !(openMatch existing (candKey cd)))).map
    (fun cd => mkAlerta cd s.now)

/-! ### Orchestrator -/

/-- The new alerts one policy contributes to an evaluation pass, after
deduplication against the pre-pass alerts. -/
def policyNewAlerts (s : Snapshot) (existing : List Alerta)
    (pc : Poliza × List Cobranza) : List Alerta :=
  ((policyCandidates pc.1 pc.2 s.now).filter
      (fun cd => !(openMatch existing (candKey cd)))).map
    (fun cd => mkAlerta cd s.now)

/-- The alerts a completed RunEvaluation pass persists. -/
def passAlerts (s : Snapshot) (existing : List Alerta) : List Alerta :=
  (s.polizas.map (policyNewAlerts s existing)).flatten

/-- Modelled from the spec: spec section 5 — the Orchestrator processes
policies independently and commits per policy, and cancellation or
timeout of an in-flight RunEvaluation leaves the already-committed
per-policy results intact.  This is the set of alerts persisted when the
pass is cancelled after the first `k` policies were processed. -/
def persistedAfterCancel (s : Snapshot) (existing : List Alerta) (k : Nat) :
    List Alerta :=
  ((s.polizas.take k).map (policyNewAlerts s existing)).flatten

/-! ### Sample records used by witnesses and counterexamples -/

/-- A pending collection, due on day 30. -/
def cPend : Cobranza :=
  { id := 1, poliza := 1, monto_uf := 10, fecha_emision := 0,
    fecha_vencimiento := 30, estado := .PENDIENTE, pago := none,
    motivo_cancelacion := none }

/-- A pending collection whose due date (day 100) lies 40 days before
day 140. -/
def cPend40 : Cobranza :=
  { id := 2, poliza := 1, monto_uf := 10, fecha_emision := 0,
    fecha_vencimiento := 100, estado := .PENDIENTE, pago := none,
    motivo_cancelacion := none }

/-- A paid collection carrying its payment record. -/
def cPagada : Cobranza :=
  { id := 1, poliza := 1, monto_uf := 10, fecha_emision := 0,
    fecha_vencimiento := 30, estado := .PAGADA,
    pago := some ⟨5, "TRANSFERENCIA", "123", ""⟩,
    motivo_cancelacion := none }

/-- A resolved alert. -/
def aResuelta : Alerta :=
  { id := 1, categoria := .COBRANZAS, prioridad := .ALTA,
    estado := .RESUELTA, poliza := some 1, regla := "cobranza_vencida",
    fecha_creacion := 0, fecha_lectura := some 1,
    fecha_resolucion := some 2 }

/-- A snapshot of two VIGENTE policies, each expiring in 3 days, with no
collections: each yields one expiring-soon candidate. -/
def sTwoPolicies : Snapshot :=
  { polizas :=
      [(⟨1, 100, 0, 3, .VIGENTE⟩, []), (⟨2, 100, 0, 3, .VIGENTE⟩, [])],
    now := 0 }

/-! ### Theorems -/

/-- C1: classifyPolicy is a pure total function of (mora_rate,
alert_count): CRITICO exactly when mora_rate > 0.50 or alert_count > 5,
else ALTO exactly when mora_rate > 0.30 or alert_count > 2, else MEDIO
exactly when mora_rate > 0.10 or alert_count > 0, else BAJO; the
thresholds are strict, so mora_rate = 0.30 with alert_count = 2
yields MEDIO, not ALTO. -/
theorem classifyPolicy_rules (cid : Int) (m : Rat) (a : Nat) :
    (classifyPolicy cid m a = .CRITICO ↔ (1/2 < m ∨ 5 < a)) ∧
    (classifyPolicy cid m a = .ALTO ↔
      ¬(1/2 < m ∨ 5 < a) ∧ (3/10 < m ∨ 2 < a)) ∧
    (classifyPolicy cid m a = NivelRiesgo.MEDIO ↔
      ¬(1/2 < m ∨ 5 < a) ∧ ¬(3/10 < m ∨ 2 < a) ∧ (1/10 < m ∨ 0 < a)) ∧
    (classifyPolicy cid m a = .BAJO ↔ m ≤ 1/10 ∧ a = 0) ∧
    classifyPolicy cid (3/10) 2 = NivelRiesgo.MEDIO := by
  have hbajo : (m ≤ 1/10 ∧ a = 0) ↔
      ¬(1/2 < m ∨ 5 < a) ∧ ¬(3/10 < m ∨ 2 < a) ∧ ¬(1/10 < m ∨ 0 < a) := by
    constructor
    · rintro ⟨hm, ha⟩
      subst ha
      refine ⟨?_, ?_, ?_⟩ <;> rintro (h | h) <;> first | linarith | omega
    · rintro ⟨-, -, h3⟩
      push_neg at h3
      exact ⟨h3.1, Nat.le_zero.mp h3.2⟩
  refine ⟨?_, ?_, ?_, ?_, ?_⟩
  · unfold classifyPolicy
    split_ifs with h1 h2 h3 <;> simp_all
  · unfold classifyPolicy
    split_ifs with h1 h2 h3 <;> simp_all
  · unfold classifyPolicy
    split_ifs with h1 h2 h3 <;> simp_all
  · rw [hbajo]
    unfold classifyPolicy
    split_ifs with h1 h2 h3
    · exact iff_of_false (by decide) (fun hx => hx.1 h1)
    · exact iff_of_false (by decide) (fun hx => hx.2.1 h2)
    · exact iff_of_false (by decide) (fun hx => hx.2.2 h3)
    · exact iff_of_true rfl ⟨h1, h2, h3⟩
  · unfold classifyPolicy
    norm_num

/-- Witness for C1: at the boundary mora_rate = 0.30 with alert_count =
2 the classifier returns MEDIO. -/
theorem classifyPolicy_rules_witness :
    classifyPolicy 0 (3/10) 2 = NivelRiesgo.MEDIO :=
  (classifyPolicy_rules 0 (3/10) 2).2.2.2.2

/-- C2: the cluster_id input does not influence the classification: for
identical mora_rate and alert_count, any two cluster ids yield the same
risk level. -/
theorem classifyPolicy_cluster_noninterference
    (m : Rat) (a : Nat) (c₁ c₂ : Int) :
    classifyPolicy c₁ m a = classifyPolicy c₂ m a := rfl

/-- Witness for C2: cluster ids 0 and 7 classify mora_rate 0.4, alert
count 1 identically. -/
theorem classifyPolicy_cluster_noninterference_witness :
    classifyPolicy 0 (2/5) 1 = classifyPolicy 7 (2/5) 1 :=
  classifyPolicy_cluster_noninterference (2/5) 1 0 7

/-- C3: payment registration is write-once: a successful RegisterPayment
leaves the collection PAGADA carrying exactly the submitted payment
record, and every further RegisterPayment on it fails with
InvalidStateError, producing no updated record. -/
theorem registerPayment_write_once
    (c : Cobranza) (f₁ : Int) (m₁ d₁ o₁ : String) (c' : Cobranza)
    (h : registerPayment c f₁ m₁ d₁ o₁ = .ok c') :
    c'.estado = .PAGADA ∧ c'.pago = some ⟨f₁, m₁, d₁, o₁⟩ ∧
      ∀ (f₂ : Int) (m₂ d₂ o₂ : String),
        registerPayment c' f₂ m₂ d₂ o₂ = .error .InvalidStateError := by
  unfold registerPayment at h
  split_ifs at h with hs
  simp only [Except.ok.injEq] at h
  subst h
  refine ⟨rfl, rfl, fun f₂ m₂ d₂ o₂ => ?_⟩
  unfold registerPayment
  rw [if_neg]
  rintro (h' | h') <;> exact EstadoCobranza.noConfusion h'

/-- Witness for C3: paying the pending sample collection succeeds,
attaches the payment record, and a second RegisterPayment on the stored
result fails with InvalidStateError while the record still holds the
first payment. -/
theorem registerPayment_write_once_witness :
    registerPayment cPagada 9 "CHEQUE" "987" "x"
        = .error .InvalidStateError ∧
      cPagada.pago = some ⟨5, "TRANSFERENCIA", "123", ""⟩ := by
  have h := registerPayment_write_once cPend 5 "TRANSFERENCIA" "123" ""
    cPagada (by rfl)
  exact ⟨h.2.2 9 "CHEQUE" "987" "x", h.2.1⟩

/-- C7: Cancel rejects an empty reason with ValidationError (so nothing
is mutated), and a successful Cancel requires a non-empty reason and a
current status PENDIENTE or EN_PROCESO, after which the collection is
CANCELADA with the reason stored and the other fields untouched. -/
theorem cancel_validation (c : Cobranza) (motivo : String) :
    (motivo = "" → cancelCollection c motivo = .error .ValidationError) ∧
    (∀ c', cancelCollection c motivo = .ok c' →
      motivo ≠ "" ∧ (c.estado = .PENDIENTE ∨ c.estado = .EN_PROCESO) ∧
        c'.estado = .CANCELADA ∧ c'.motivo_cancelacion = some motivo ∧
        c'.pago = c.pago ∧ c'.fecha_vencimiento = c.fecha_vencimiento) := by
  constructor
  · intro h
    simp [cancelCollection, h]
  · intro c' h
    unfold cancelCollection at h
    split_ifs at h with h1 h2
    simp only [Except.ok.injEq] at h
    subst h
    exact ⟨h1, h2, rfl, rfl, rfl, rfl⟩

/-- Witness for C7: cancelling the pending sample collection with an
empty reason fails with ValidationError. -/
theorem cancel_validation_witness :
    cancelCollection cPend "" = .error .ValidationError :=
  (cancel_validation cPend "").1 rfl

/-! ### Collection lifetime (C5) -/

/-- A user-facing mutation of a collection: payment or cancellation. -/
inductive CobranzaOp where
  | pay (fecha : Int) (metodo documento obs : String)
  | cancel (motivo : String)
deriving DecidableEq

/-- Applying one operation to the stored collection: a failed operation
surfaces its typed error to the caller and leaves the record as it
was. -/
def applyOp (c : Cobranza) (op : CobranzaOp) : Cobranza :=
  match op with
  | .pay f m d o =>
      match registerPayment c f m d o with
      | .ok c' => c'
      | .error _ => c
  | .cancel motivo =>
      match cancelCollection c motivo with
      | .ok c' => c'
      | .error _ => c

/-- The stored collection after a sequence of operations. -/
def runOps (c : Cobranza) (ops : List CobranzaOp) : Cobranza :=
  ops.foldl applyOp c

/-- Neither operation changes a collection that is already PAGADA or
CANCELADA. -/
theorem applyOp_terminal (d : Cobranza)
    (hd : d.estado = .PAGADA ∨ d.estado = .CANCELADA) (op : CobranzaOp) :
    applyOp d op = d := by
  have hne : ¬(d.estado = .PENDIENTE ∨ d.estado = .EN_PROCESO) := by
    rcases hd with h | h <;> rw [h] <;> rintro (h' | h') <;> cases h'
  cases op with
  | pay f m dd o => simp [applyOp, registerPayment, hne]
  | cancel motivo =>
      by_cases hm : motivo = "" <;>
        simp [applyOp, cancelCollection, hm, hne]

/-- A terminal collection is a fixed point of every operation
sequence. -/
theorem runOps_terminal (ops : List CobranzaOp) (d : Cobranza)
    (hd : d.estado = .PAGADA ∨ d.estado = .CANCELADA) :
    runOps d ops = d := by
  induction ops generalizing d with
  | nil => rfl
  | cons op ops ih =>
      show List.foldl applyOp (applyOp d op) ops = d
      rw [applyOp_terminal d hd op]
      exact ih d hd

/-- C5: PAGADA and CANCELADA are terminal: once a run of
RegisterPayment/Cancel operations has put a collection in either state,
every further operation leaves the whole record unchanged, so the other
terminal state is never reached — at most one of PAGADA and CANCELADA
holds over the collection's lifetime. -/
theorem terminal_states (c : Cobranza) (ops₁ ops₂ : List CobranzaOp)
    (hterm : (runOps c ops₁).estado = .PAGADA ∨
      (runOps c ops₁).estado = .CANCELADA) :
    runOps c (ops₁ ++ ops₂) = runOps c ops₁ ∧
    ((runOps c ops₁).estado = .PAGADA →
      (runOps c (ops₁ ++ ops₂)).estado ≠ .CANCELADA) ∧
    ((runOps c ops₁).estado = .CANCELADA →
      (runOps c (ops₁ ++ ops₂)).estado ≠ .PAGADA) := by
  have happ : runOps c (ops₁ ++ ops₂) = runOps (runOps c ops₁) ops₂ := by
    simp [runOps]
  have hfix : runOps c (ops₁ ++ ops₂) = runOps c ops₁ := by
    rw [happ, runOps_terminal ops₂ _ hterm]
  refine ⟨hfix, ?_, ?_⟩ <;> intro h1 h2 <;> rw [hfix, h1] at h2 <;> cases h2

/-- Witness for C5: starting from the paid sample collection, appending
a cancellation attempt changes nothing. -/
theorem terminal_states_witness :
    runOps cPagada ([] ++ [CobranzaOp.cancel "fraude"]) =
      runOps cPagada [] :=
  (terminal_states cPagada [] [CobranzaOp.cancel "fraude"]
    (Or.inl rfl)).1

/-! ### Overdue reporting (C6) -/

/-- C6 counterexample: the claim's overdue count `now - due_date` is
nonnegative for an overdue collection, but the repository's Días cell
renders a nonnegative value as plain days remaining ("40d", green) and
reserves the "vencido" (overdue) presentation for negative values, so
overdue collections are reported by a negative number and not-yet-due
ones by a positive number — the opposite of the claimed sign
convention. -/
theorem dias_sign_counterexample :
    days_overdue cPend40 140 = 40 ∧
    isOverdue cPend40 140 = true ∧
    diasCellText (days_overdue cPend40 140) = "40d" ∧
    diasCellColor (days_overdue cPend40 140) = "text-green-600" ∧
    dias_vencimiento cPend40 140 = -40 ∧
    diasCellText (dias_vencimiento cPend40 140) = "40d vencido" ∧
    diasCellColor (dias_vencimiento cPend40 140) = "text-red-600" ∧
    diasCellText 5 = "5d" := by
  refine ⟨rfl, rfl, rfl, rfl, rfl, rfl, rfl, rfl⟩

/-- C6 amended: the reported count `dias_vencimiento` equals
`due_date - now.Date` (days until due): it is negative exactly when the
due date has passed, in which case the Días cell shows
"{days overdue}d vencido" in red; a positive value is shown as plain
days remaining; and IsOverdue(c, now) is true iff the status is
PENDIENTE or EN_PROCESO and now.Date > due_date, hence false for PAGADA
or CANCELADA collections regardless of date. -/
theorem dias_vencimiento_convention (c : Cobranza) (now : Int) :
    (dias_vencimiento c now < 0 ↔ c.fecha_vencimiento < now) ∧
    (dias_vencimiento c now < 0 →
      diasCellText (dias_vencimiento c now)
          = toString (days_overdue c now).natAbs ++ "d vencido" ∧
        diasCellColor (dias_vencimiento c now) = "text-red-600") ∧
    (0 < dias_vencimiento c now →
      diasCellText (dias_vencimiento c now)
        = toString (dias_vencimiento c now).natAbs ++ "d") ∧
    (isOverdue c now = true ↔
      (c.estado = .PENDIENTE ∨ c.estado = .EN_PROCESO) ∧
        c.fecha_vencimiento < now) ∧
    (c.estado = .PAGADA → isOverdue c now = false) ∧
    (c.estado = .CANCELADA → isOverdue c now = false) := by
  refine ⟨?_, ?_, ?_, ?_, ?_, ?_⟩
  · unfold dias_vencimiento
    omega
  · intro hneg
    have hnotpos : ¬dias_vencimiento c now > 0 := by omega
    have habs : (dias_vencimiento c now).natAbs = (days_overdue c now).natAbs := by
      unfold dias_vencimiento days_overdue
      omega
    rw [diasCellText, diasCellColor, if_neg hnotpos, if_pos hneg,
      if_pos hneg, habs]
    exact ⟨rfl, rfl⟩
  · intro hpos
    rw [diasCellText, if_pos hpos]
  · unfold isOverdue
    cases hc : c.estado <;>
      simp [hc, decide_eq_true_eq]
  · intro hp
    simp [isOverdue, hp]
  · intro hp
    simp [isOverdue, hp]

/-- Witness for C6 amended: for the sample collection 40 days past due
on day 140, the reported value is -40, the cell shows "40d vencido" in
red, and IsOverdue is true; for the paid sample it is false. -/
theorem dias_vencimiento_convention_witness :
    dias_vencimiento cPend40 140 < 0 ∧
    diasCellText (dias_vencimiento cPend40 140)
        = toString (days_overdue cPend40 140).natAbs ++ "d vencido" ∧
    isOverdue cPagada 140 = false := by
  refine ⟨by decide, ((dias_vencimiento_convention cPend40 140).2.1
    (by decide)).1, (dias_vencimiento_convention cPagada 140).2.2.2.2.1 rfl⟩

/-! ### Alert lifecycle (C8) -/

/-- C8: RESUELTA and DESCARTADA are terminal alert states: from either,
MarkRead, Resolve and Discard all fail with InvalidStateError and
produce no updated record, while Resolve and Discard succeed from
PENDIENTE or LEIDA. -/
theorem alert_terminal_states (a : Alerta) (now : Int) :
    ((a.estado = .RESUELTA ∨ a.estado = .DESCARTADA) →
      markRead a now = .error .InvalidStateError ∧
      resolveAlert a now = .error .InvalidStateError ∧
      discardAlert a = .error .InvalidStateError) ∧
    ((a.estado = .PENDIENTE ∨ a.estado = .LEIDA) →
      resolveAlert a now =
          .ok { a with estado := .RESUELTA, fecha_resolucion := some now } ∧
        discardAlert a = .ok { a with estado := .DESCARTADA }) := by
  constructor
  · rintro (h | h) <;>
      exact ⟨by simp [markRead, h], by simp [resolveAlert, h],
        by simp [discardAlert, h]⟩
  · rintro (h | h) <;>
      exact ⟨by simp [resolveAlert, h], by simp [discardAlert, h]⟩

/-- Witness for C8: on the resolved sample alert all three transitions
fail with InvalidStateError. -/
theorem alert_terminal_states_witness :
    markRead aResuelta 7 = .error .InvalidStateError ∧
    resolveAlert aResuelta 7 = .error .InvalidStateError ∧
    discardAlert aResuelta = .error .InvalidStateError :=
  (alert_terminal_states aResuelta 7).1 (Or.inl rfl)

/-! ### Alert rule engine deduplication (C4) -/

/-- C4: the engine is idempotent under deduplication: running it a
second time on the same snapshot, with the first run's alerts added to
the store and no other state change, creates zero new alerts — every
candidate now has an open (PENDIENTE or LEIDA) alert with its dedup
key. -/
theorem runEngine_idempotent (s : Snapshot) (existing : List Alerta) :
    runEngine s (existing ++ runEngine s existing) = [] := by
  unfold runEngine
  rw [List.map_eq_nil_iff, List.filter_eq_nil_iff]
  intro cd hcd
  rw [Bool.not_eq_true, Bool.not_eq_false']
  by_cases h : openMatch existing (candKey cd) = true
  · unfold openMatch at h ⊢
    rw [List.any_append, h, Bool.true_or]
  · rw [Bool.not_eq_true] at h
    have hmem : mkAlerta cd s.now ∈ runEngine s existing := by
      unfold runEngine
      exact List.mem_map_of_mem _
        (List.mem_filter.mpr ⟨hcd, by rw [h]; rfl⟩)
    unfold openMatch
    rw [List.any_append, Bool.or_eq_true]
    refine Or.inr (List.any_eq_true.mpr ⟨mkAlerta cd s.now, hmem, ?_⟩)
    simp [mkAlerta, alertKey, candKey, alertaActionsShown]

/-- Witness for C4: re-running the engine on the two-policy sample
snapshot right after a first run creates no alerts. -/
theorem runEngine_idempotent_witness :
    runEngine sTwoPolicies ([] ++ runEngine sTwoPolicies []) = [] :=
  runEngine_idempotent sTwoPolicies []

/-! ### Orchestrator commit granularity (C9) -/

/-- C9 counterexample: a RunEvaluation pass over the two-policy sample
snapshot that is cancelled after the first policy persists exactly that
policy's alert — a strict non-empty subset of the pass's two new alerts,
so the pass is not all-or-nothing. -/
theorem runEvaluation_partial_commit_counterexample :
    persistedAfterCancel sTwoPolicies [] 1 ≠ [] ∧
    persistedAfterCancel sTwoPolicies [] 1 ≠ passAlerts sTwoPolicies [] ∧
    (passAlerts sTwoPolicies []).length = 2 ∧
    (persistedAfterCancel sTwoPolicies [] 1).length = 1 := by
  have hmora : ¬(1/2 : Rat) < moraRate [] 0 := by
    norm_num [moraRate]
  have hcand : ∀ i : Nat,
      policyCandidates ⟨i, 100, 0, 3, .VIGENTE⟩ [] 0
        = [⟨.VENCIMIENTOS, .ALTA, i, "por_vencer"⟩] := by
    intro i
    norm_num [policyCandidates, expiringCandidate, overdueCandidate,
      highMoraCandidate, hmora]
  have h1 : persistedAfterCancel sTwoPolicies [] 1
      = [mkAlerta ⟨.VENCIMIENTOS, .ALTA, 1, "por_vencer"⟩ 0] := by
    simp [persistedAfterCancel, sTwoPolicies, policyNewAlerts, hcand,
      openMatch]
  have h2 : passAlerts sTwoPolicies []
      = [mkAlerta ⟨.VENCIMIENTOS, .ALTA, 1, "por_vencer"⟩ 0,
         mkAlerta ⟨.VENCIMIENTOS, .ALTA, 2, "por_vencer"⟩ 0] := by
    simp [passAlerts, sTwoPolicies, policyNewAlerts, hcand, openMatch]
  refine ⟨by simp [h1], by simp [h1, h2, mkAlerta], by simp [h2],
    by simp [h1]⟩

/-- C9 amended: RunEvaluation commits per policy: when a pass is
cancelled after processing k policies, the persisted alerts are exactly
the whole per-policy alert groups of those first k policies — the
remaining policies' groups are exactly what a completed pass would have
added, no single policy's group is split, a cancellation at 0 persists
nothing, and one past the last policy persists the full pass. -/
theorem runEvaluation_per_policy_commit (s : Snapshot)
    (existing : List Alerta) (k : Nat) :
    persistedAfterCancel s existing k ++
        ((s.polizas.drop k).map (policyNewAlerts s existing)).flatten
      = passAlerts s existing ∧
    persistedAfterCancel s existing 0 = [] ∧
    persistedAfterCancel s existing s.polizas.length
      = passAlerts s existing := by
  refine ⟨?_, rfl, ?_⟩
  · unfold persistedAfterCancel passAlerts
    rw [← List.flatten_append, ← List.map_append, List.take_append_drop]
  · unfold persistedAfterCancel passAlerts
    rw [List.take_length]

/-- Witness for C9 amended: on the two-policy sample snapshot, the
alerts committed before a cancellation after one policy, followed by the
remaining policy's group, make up exactly the full pass. -/
theorem runEvaluation_per_policy_commit_witness :
    persistedAfterCancel sTwoPolicies [] 1 ++
        ((sTwoPolicies.polizas.drop 1).map
          (policyNewAlerts sTwoPolicies [])).flatten
      = passAlerts sTwoPolicies [] :=
  (runEvaluation_per_policy_commit sTwoPolicies [] 1).1

/-! ### Frontend action gating (C10) -/

/-- C10: the Cobranzas row renders the Pagar and Cancelar buttons
exactly when the collection's estado is PENDIENTE; in every other
state — including EN_PROCESO — the row carries no payment or
cancellation action. -/
theorem acciones_only_pendiente (c : Cobranza) :
    (Accion.Pagar ∈ accionesCell c ↔ c.estado = .PENDIENTE) ∧
    (Accion.Cancelar ∈ accionesCell c ↔ c.estado = .PENDIENTE) ∧
    (c.estado = .EN_PROCESO → accionesCell c = []) := by
  cases hc : c.estado <;> cases hp : c.pago <;>
    simp [accionesCell, hc, hp]

/-- Witness for C10: a collection in EN_PROCESO renders an empty
Acciones cell. -/
theorem acciones_only_pendiente_witness :
    accionesCell { cPend with estado := .EN_PROCESO } = [] :=
  (acciones_only_pendiente { cPend with estado := .EN_PROCESO }).2.2 rfl

end Sigepol
